import Mathlib

/-!
Verification of the APort pre-action authorization examples.

Shallow embedding of the decision-relevant functions of the repository:
`_compare_assurance_levels` and `verify_with_retry` (python/basic_usage.py),
`extract_mcp_headers` and `validate_mcp_against_passport`
(python/mcp_enforcement.py), `PreActionAuthorizer.verify` and
`with_pre_action_authorization` (openai-agents/pre_action_authorization.py),
and the Microsoft Agent Framework middlewares
(microsoft-agent-framework/aport_middleware.py).  Remote calls
(`client.verify_policy`, `client.get_passport_view`) are modelled as
oracles supplied to the embedded functions; Python truthiness of optional
strings is modelled explicitly.
-/

/-- Python truthiness of an optional string: `None` and `""` are falsy. -/
def truthy : Option String → Bool
  | none => false
  | some s => s ≠ ""

/-- Python `a or b` on optional strings: yields `a` when `a` is truthy, else `b`. -/
def pyOr (a b : Option String) : Option String :=
  if truthy a then a else b

/-- A policy verification `Decision` as carried by `PolicyVerificationResponse`:
`decision_id`, `allow`, and the reuse window `expires_in` (seconds). -/
structure Decision where
  decision_id : String
  allow : Bool
  expires_in : Nat
deriving DecidableEq, Repr

/-- Outcome of one call to the remote `client.verify_policy`: either a parsed
decision or a raised error (`AportError` and kin). -/
inductive VerifyOutcome where
  | decision (d : Decision)
  | failure
deriving DecidableEq, Repr

/-- Outcome of one call to the remote `client.get_passport_view`: success or a
raised `AportError`. -/
inductive PassportOutcome where
  | ok
  | error
deriving DecidableEq, Repr

/-! ## Assurance level comparison (python/basic_usage.py, `_compare_assurance_levels`) -/

/-- The ordered tier list of `_compare_assurance_levels`. -/
def levels : List String := ["L0", "L1", "L2", "L3", "L4KYC", "L4FIN"]

/-- `AgentPassportClient._compare_assurance_levels`: look both tiers up in
`levels` with `list.index` (`ValueError` on a miss is the `none` branch) and
return `current_index >= required_index`; any miss returns `False`. -/
def compare_assurance_levels (current required : String) : Bool :=
  match levels.findIdx? (· == current), levels.findIdx? (· == required) with
  | some current_index, some required_index => decide (required_index ≤ current_index)
  | _, _ => false

/-! ## MCP header extraction (python/mcp_enforcement.py, `extract_mcp_headers`) -/

/-- Python `str.strip()`: drop leading and trailing whitespace, modelled on
the character list. -/
def pyStrip (cs : List Char) : List Char :=
  ((cs.dropWhile Char.isWhitespace).reverse.dropWhile Char.isWhitespace).reverse

/-- Python `str.lower()` (ASCII case folding), modelled on the character
list. -/
def pyLower (s : String) : String :=
  String.mk (s.data.map Char.toLower)

/-- The body of the header parse: a header containing `","` is split on it
with each piece stripped (`[s.strip() for s in header.split(",")]`), a lone
value is kept as a one-element list unchanged. -/
def splitHeader (h : String) : List String :=
  if h.data.contains ',' then
    (h.data.splitOn ',').map (fun cs => String.mk (pyStrip cs))
  else [h]

/-- `servers = []` unless the resolved header is truthy, in which case it is
parsed by `splitHeader`. -/
def parseListHeader : Option String → List String
  | none => []
  | some h => if h = "" then [] else splitHeader h

/-- The mapping returned by `extract_mcp_headers`. -/
structure McpHeaders where
  servers : List String
  tools : List String
  session : Option String
  server : Option String
  tool : Option String
deriving DecidableEq, Repr

/-- `extract_mcp_headers`: resolves `X-MCP-Servers or X-MCP-Server` and
`X-MCP-Tools or X-MCP-Tool` with Python `or`, parses each into a list, and
adds the backward-compatible single values `servers[0] if servers else None`
and `tools[0] if tools else None`. -/
def extract_mcp_headers (serversH serverH toolsH toolH sessionH : Option String) :
    McpHeaders :=
  let servers_header := pyOr serversH serverH
  let tools_header := pyOr toolsH toolH
  let servers := parseListHeader servers_header
  let tools := parseListHeader tools_header
  { servers := servers
    tools := tools
    session := sessionH
    server := servers.head?
    tool := tools.head? }

/-! ## MCP allowlist validation (python/mcp_enforcement.py, `validate_mcp_against_passport`) -/

/-- Result of `validate_mcp_against_passport` after a successful passport
fetch: `ok` is `return True`; the two denial constructors are the two
`HTTPException(403, ...)` raises, each carrying exactly the unauthorized list
its `detail` message reports. -/
inductive McpValidation where
  | ok
  | serverDenied (unauthorized_servers : List String)
  | toolDenied (unauthorized_tools : List String)
deriving DecidableEq, Repr

/-- `validate_mcp_against_passport` (passport already fetched, so the
allowlists are inputs).  The Python computes `unauthorized_servers` only under
`if mcp_headers.get("servers"):`; hoisting the pure list comprehension out of
that guard is harmless since filtering the empty list is empty. -/
def validate_mcp_against_passport
    (allowed_servers allowed_tools requested_servers requested_tools : List String) :
    McpValidation :=
  if requested_servers ≠ [] ∧
      requested_servers.filter (fun server => decide (server ∉ allowed_servers)) ≠ [] then
    .serverDenied (requested_servers.filter (fun server => decide (server ∉ allowed_servers)))
  else if requested_tools ≠ [] ∧
      requested_tools.filter (fun tool => decide (tool ∉ allowed_tools)) ≠ [] then
    .toolDenied (requested_tools.filter (fun tool => decide (tool ∉ allowed_tools)))
  else
    .ok

/-- Which unauthorized-server set a validation failure reports in its detail. -/
def carriedUnauthorizedServers : McpValidation → Option (List String)
  | .serverDenied us => some us
  | _ => none

/-- Which unauthorized-tool set a validation failure reports in its detail. -/
def carriedUnauthorizedTools : McpValidation → Option (List String)
  | .toolDenied ut => some ut
  | _ => none

/-! ## Per-transaction limit check (python/basic_usage.py,
`demonstrate_capabilities_and_limits`, refund branch) -/

/-- Result of the refund limit branch: the guard
`if passport.get('limits', {}).get('refund_amount_max_per_tx'):` skips the
check when the limit is absent or falsy (`notApplicable`); otherwise the
amount passes (`withinLimit`) or fails (`limitExceeded`). -/
inductive LimitCheck where
  | withinLimit
  | limitExceeded
  | notApplicable
deriving DecidableEq, Repr

/-- The refund per-transaction limit check: with a truthy limit present,
`refund_amount <= max_per_tx` passes, otherwise the exceeds branch runs. -/
def refund_limit_check (max_per_tx : Option Int) (refund_amount : Int) : LimitCheck :=
  match max_per_tx with
  | none => .notApplicable
  | some l =>
    if l = 0 then .notApplicable
    else if refund_amount ≤ l then .withinLimit
    else .limitExceeded

/-! ## Retry loop (python/basic_usage.py, `verify_with_retry`) -/

/-- One attempt's outcome as seen by `verify_with_retry`: an HTTP response
with status, optional `retryAfter` payload field, and data, or an exception
raised inside the attempt. -/
inductive Outcome where
  | resp (status : Nat) (retryAfter : Option Nat) (data : Nat)
  | exn
deriving DecidableEq, Repr

/-- Whether an attempt outcome takes one of the retryable branches of
`verify_with_retry` (anything but a 200 response). -/
def isFail : Outcome → Bool
  | .resp s _ _ => s ≠ 200
  | .exn => true

/-- The sleep duration `verify_with_retry` uses before the retry after the
given attempt: `retryAfter` from a 429 body (defaulting to `2 ** attempt`),
`2 ** attempt` for every other failure. -/
def delayOf (o : Outcome) (attempt : Nat) : Nat :=
  match o with
  | .resp s ra _ => if s = 429 then ra.getD (2 ^ attempt) else 2 ^ attempt
  | .exn => 2 ^ attempt

/-- The loop body of `verify_with_retry`, unrolled over attempt numbers.
`oracle i` is the outcome of the i-th call to `verify_passport` (1-based, as
in `range(1, max_retries + 1)`).  Returns the final result (`None` when the
loop exhausts), the number of calls made, and the list of sleeps taken.
`remaining` is the number of loop iterations left, `max_retries + 1 - attempt`
at every call. -/
def retryGo (oracle : Nat → Outcome) (max_retries : Nat) :
    Nat → Nat → Option Nat × Nat × List Nat
  | _, 0 => (none, 0, [])
  | attempt, r + 1 =>
    match oracle attempt with
    | .resp s ra d =>
      if s = 200 then (some d, 1, [])
      else if s = 429 then
        if attempt < max_retries then
          let rest := retryGo oracle max_retries (attempt + 1) r
          (rest.1, rest.2.1 + 1, (ra.getD (2 ^ attempt)) :: rest.2.2)
        else (none, 1, [])
      else
        if attempt < max_retries then
          let rest := retryGo oracle max_retries (attempt + 1) r
          (rest.1, rest.2.1 + 1, 2 ^ attempt :: rest.2.2)
        else (none, 1, [])
    | .exn =>
      if attempt < max_retries then
        let rest := retryGo oracle max_retries (attempt + 1) r
        (rest.1, rest.2.1 + 1, 2 ^ attempt :: rest.2.2)
      else (none, 1, [])

/-- `AgentPassportClient.verify_with_retry`: attempts run for
`attempt in range(1, max_retries + 1)`; a 200 returns its data immediately,
a 429 sleeps `retryAfter or 2 ** attempt` and retries, any other status or an
exception sleeps `2 ** attempt` and retries, and falling off the loop returns
`None`. -/
def verify_with_retry (oracle : Nat → Outcome) (max_retries : Nat) :
    Option Nat × Nat × List Nat :=
  retryGo oracle max_retries 1 max_retries

/-! ## Pre-action authorization wrapper
(openai-agents/pre_action_authorization.py) -/

/-- The error surfaced by `PreActionAuthorizer.verify` / the wrapper:
`AuthorizationError` carries the denying decision; any error raised by
`client.verify_policy` itself propagates unchanged. -/
inductive AuthFailure where
  | authorizationError (decision : Decision)
  | verificationFailure
deriving DecidableEq, Repr

/-- `PreActionAuthorizer.verify`: forwards to `client.verify_policy` (its
outcome is the oracle argument); raises `AuthorizationError(decision)` when
`not decision.allow`, returns the decision otherwise; a raised client error
propagates. -/
def PreActionAuthorizer_verify (outcome : VerifyOutcome) :
    Except AuthFailure Decision :=
  match outcome with
  | .failure => .error .verificationFailure
  | .decision d => if ¬ d.allow then .error (.authorizationError d) else .ok d

/-- What one call of the function wrapped by `with_pre_action_authorization`
did: whether the wrapped `func` ran, and the value returned or error raised. -/
structure WrappedRun where
  funcExecuted : Bool
  result : Except AuthFailure Nat
deriving Repr

/-- The `wrapper` produced by `with_pre_action_authorization`: verify first;
on success execute `func` (its pure result is the `action` argument); on
`AuthorizationError` re-raise an `AuthorizationError` with the same decision;
any other verification error propagates uncaught.  In every error path the
wrapped `func` is not executed. -/
def with_pre_action_authorization (outcome : VerifyOutcome) (action : Nat) :
    WrappedRun :=
  match PreActionAuthorizer_verify outcome with
  | .ok _ => ⟨true, .ok action⟩
  | .error (.authorizationError d) => ⟨false, .error (.authorizationError d)⟩
  | .error .verificationFailure => ⟨false, .error .verificationFailure⟩

/-! ## Microsoft Agent Framework middlewares
(microsoft-agent-framework/aport_middleware.py) -/

/-- Observable effects of one middleware invocation: whether `next` was
awaited, the final `context.terminate`, and how many times `verify_policy`
and `get_passport_view` were called. -/
structure MiddlewareRun where
  nextInvoked : Bool
  terminate : Bool
  verifyCalls : Nat
  passportCalls : Nat
deriving DecidableEq, Repr

/-- `_default_policy_mapping`: the hard-coded lowercased function-name →
policy-id dictionary. -/
def default_policy_mapping (function_name : String) : Option String :=
  let n := pyLower function_name
  if n = "execute_refund" then some "finance.payment.refund.v1"
  else if n = "process_refund" then some "finance.payment.refund.v1"
  else if n = "refund" then some "finance.payment.refund.v1"
  else if n = "export_data" then some "data.export.create.v1"
  else if n = "create_export" then some "data.export.create.v1"
  else if n = "merge_pull_request" then some "code.repository.merge.v1"
  else if n = "deploy" then some "code.deployment.create.v1"
  else if n = "send_message" then some "messaging.message.send.v1"
  else none

/-- `aport_function_middleware`: fail closed on a missing agent id; resolve
`policy_id` as `metadata["policy_id"] or metadata["policy_<fn>"] or
_default_policy_mapping(fn)`; when no policy id resolves, `await next` with no
verification at all; otherwise verify once and invoke `next` only on an
allowing decision, terminating on a deny or an `AportError`. -/
def aport_function_middleware
    (agentIdMeta agentPassportIdMeta policyIdMeta policyFnMeta : Option String)
    (function_name : String) (verify : VerifyOutcome) : MiddlewareRun :=
  let agent_id := pyOr agentIdMeta agentPassportIdMeta
  if ¬ truthy agent_id then
    { nextInvoked := false, terminate := true, verifyCalls := 0, passportCalls := 0 }
  else
    let policy_id :=
      pyOr (pyOr policyIdMeta policyFnMeta) (default_policy_mapping function_name)
    if ¬ truthy policy_id then
      { nextInvoked := true, terminate := false, verifyCalls := 0, passportCalls := 0 }
    else
      match verify with
      | .decision d =>
        if ¬ d.allow then
          { nextInvoked := false, terminate := true, verifyCalls := 1, passportCalls := 0 }
        else
          { nextInvoked := true, terminate := false, verifyCalls := 1, passportCalls := 0 }
      | .failure =>
        { nextInvoked := false, terminate := true, verifyCalls := 1, passportCalls := 0 }

/-- `aport_agent_middleware` (function-based): fail closed on a missing agent
id; with a truthy `policy_id` verify the policy once and invoke `next` only on
an allowing decision; with no `policy_id` only `get_passport_view` gates
`next` (no policy decision is produced). -/
def aport_agent_middleware
    (agentIdMeta agentPassportIdMeta policyIdMeta : Option String)
    (verify : VerifyOutcome) (passport : PassportOutcome) : MiddlewareRun :=
  let agent_id := pyOr agentIdMeta agentPassportIdMeta
  if ¬ truthy agent_id then
    { nextInvoked := false, terminate := true, verifyCalls := 0, passportCalls := 0 }
  else if truthy policyIdMeta then
    match verify with
    | .decision d =>
      if ¬ d.allow then
        { nextInvoked := false, terminate := true, verifyCalls := 1, passportCalls := 0 }
      else
        { nextInvoked := true, terminate := false, verifyCalls := 1, passportCalls := 0 }
    | .failure =>
      { nextInvoked := false, terminate := true, verifyCalls := 1, passportCalls := 0 }
  else
    match passport with
    | .ok =>
      { nextInvoked := true, terminate := false, verifyCalls := 0, passportCalls := 1 }
    | .error =>
      { nextInvoked := false, terminate := true, verifyCalls := 0, passportCalls := 1 }

/-- `AportAgentMiddleware.process` (class-based): in the source only the
`self.logger.warning(...)` call is indented under `if not agent_id:`; the
following `context.terminate = True`, the result assignment, and the `return`
sit at the enclosing indentation level and therefore execute on every path,
before `policy_id` is read and before any `verify_policy`, `get_passport_view`
or `next` call — the rest of the method body is unreachable. -/
def AportAgentMiddleware_process
    (agentIdMeta agentPassportIdMeta policyIdMeta : Option String)
    (verify : VerifyOutcome) (passport : PassportOutcome) : MiddlewareRun :=
  let _agent_id := pyOr agentIdMeta agentPassportIdMeta
  let _unused := (policyIdMeta, verify, passport)
  { nextInvoked := false, terminate := true, verifyCalls := 0, passportCalls := 0 }

/-! ## Idempotency-keyed deduplication

The deduplication behind `idempotency_key` is implemented by the APort SDK
and the remote verification service, which are not part of this repository;
the repository only passes the key through (`PreActionAuthorizer.verify`,
`create_refund`).  The definitions below are therefore modelled from the
spec. -/

/-- Modelled from the spec: a `DedupEntry` — `(idempotency_key) → (Decision,
recorded_at, ttl)`, created on first verification with a given key (§3). -/
structure DedupEntry where
  decision : Decision
  recorded_at : Nat
  ttl : Nat
deriving DecidableEq, Repr

/-- Modelled from the spec: an entry is live while its TTL has not elapsed. -/
def DedupEntry.isLive (e : DedupEntry) (now : Nat) : Bool :=
  decide (now < e.recorded_at + e.ttl)

/-- The deduper's key → entry map. -/
def DedupStore : Type := String → Option DedupEntry

/-- Result of one modelled `verify` call: the returned decision, the store
afterwards, and how many remote verification calls were made. -/
structure VerifyRun where
  decision : Decision
  store : DedupStore
  remoteCalls : Nat

/-- Modelled from the spec: `PolicyVerificationClient.verify` steps 1, 2 and 5
(§4.6) with the `IdempotencyKeyedDeduper` (§4.5), both implemented in the SDK
and remote service outside this repository.  With a key and a live entry the
cached decision is returned with no remote call; otherwise one remote
verification runs (its decision is the `remote` oracle argument) and is
committed under the key with TTL `min(configured_ttl, decision.expires_in)`;
with no key every call is independently verified. -/
def verify_dedup (store : DedupStore) (key : Option String) (now : Nat)
    (configured_ttl : Nat) (remote : Decision) : VerifyRun :=
  match key with
  | none => ⟨remote, store, 1⟩
  | some k =>
    match store k with
    | some e =>
      if e.isLive now then ⟨e.decision, store, 0⟩
      else
        ⟨remote,
         fun k' => if k' = k then
             some ⟨remote, now, min configured_ttl remote.expires_in⟩
           else store k',
         1⟩
    | none =>
      ⟨remote,
       fun k' => if k' = k then
           some ⟨remote, now, min configured_ttl remote.expires_in⟩
         else store k',
       1⟩


/-! ## Shared helper lemmas -/

/-- A `findIdx?` over the tier list misses exactly when the probed tier is not
in the list. -/
theorem findIdx_beq_eq_none {l : List String} {c : String} (h : c ∉ l) :
    l.findIdx? (· == c) = none := by
  rw [List.findIdx?_eq_none_iff]
  intro x hx
  simp only [beq_eq_false_iff_ne, ne_eq]
  exact fun he => h (he ▸ hx)

/-- The unauthorized-entry filter is empty exactly when every requested entry
is in the allowlist. -/
theorem filter_not_mem_eq_nil_iff (l allowlist : List String) :
    l.filter (fun s => decide (s ∉ allowlist)) = [] ↔ ∀ s ∈ l, s ∈ allowlist := by
  rw [List.filter_eq_nil_iff]
  constructor
  · intro h s hs
    have := h s hs
    simpa using this
  · intro h s hs
    simpa using h s hs

/-- A concrete allowing decision used to instantiate hypotheses. -/
def decAllow : Decision := ⟨"dec_allow", true, 60⟩

/-- A concrete denying decision used to instantiate hypotheses. -/
def decDeny : Decision := ⟨"dec_deny", false, 60⟩

/-! ## Claims -/

/-- Claim C4 (confirmed): assurance comparison follows the total order of the
tier list: on known tiers `compare(current, required)` is true iff current's
index is at least required's (so `compare L2 L3` is false and `compare L3 L2`
is true), and an unknown tier name on either argument yields `false`. -/
theorem C4_assurance_order :
    (compare_assurance_levels "L2" "L3" = false
      ∧ compare_assurance_levels "L3" "L2" = true)
    ∧ (∀ (i j : Fin levels.length),
        compare_assurance_levels (levels.get i) (levels.get j)
          = decide ((j : Nat) ≤ (i : Nat)))
    ∧ (∀ current required : String, current ∉ levels →
        compare_assurance_levels current required = false)
    ∧ (∀ current required : String, required ∉ levels →
        compare_assurance_levels current required = false) := by
  refine ⟨⟨by decide, by decide⟩, by decide, ?_, ?_⟩
  · intro current required h
    unfold compare_assurance_levels
    rw [findIdx_beq_eq_none h]
  · intro current required h
    unfold compare_assurance_levels
    rw [findIdx_beq_eq_none h]
    cases levels.findIdx? (· == current) <;> rfl

/-- Witness for C4 at a concrete unknown tier. -/
theorem C4_assurance_order_witness :
    compare_assurance_levels "L9" "L1" = false :=
  C4_assurance_order.2.2.1 "L9" "L1" (by decide)

/-- Claim C5 counterexample: the claim says holding `L4FIN` never satisfies a
requirement of `L4KYC`, but the comparator places both on one total order with
`L4KYC` below `L4FIN`, so `compare("L4FIN", "L4KYC")` is `true`. -/
theorem C5_counterexample :
    compare_assurance_levels "L4FIN" "L4KYC" = true := by decide

/-- Claim C5 (corrected): both top tiers strictly exceed `L3`, but they are
not mutually independent — the comparator orders them `L4KYC < L4FIN`, so
`L4KYC` does not satisfy an `L4FIN` requirement while `L4FIN` does satisfy an
`L4KYC` requirement. -/
theorem C5_top_tier_order_amended :
    compare_assurance_levels "L4KYC" "L3" = true
    ∧ compare_assurance_levels "L4FIN" "L3" = true
    ∧ compare_assurance_levels "L3" "L4KYC" = false
    ∧ compare_assurance_levels "L3" "L4FIN" = false
    ∧ compare_assurance_levels "L4KYC" "L4FIN" = false
    ∧ compare_assurance_levels "L4FIN" "L4KYC" = true := by decide

/-- Claim C8 (confirmed): with a present non-zero per-transaction ceiling `l`,
the check passes iff the requested amount is `≤ l`; in particular with
`refund_amount_max_per_tx = 5000` an amount of 5000 passes and 5001 fails. -/
theorem C8_limit_boundary :
    (∀ (l v : Int), l ≠ 0 →
      ((refund_limit_check (some l) v = .withinLimit ↔ v ≤ l)
        ∧ (refund_limit_check (some l) v = .limitExceeded ↔ ¬ v ≤ l)))
    ∧ refund_limit_check (some 5000) 5000 = .withinLimit
    ∧ refund_limit_check (some 5000) 5001 = .limitExceeded := by
  refine ⟨?_, by decide, by decide⟩
  intro l v hl
  simp only [refund_limit_check]
  rw [if_neg hl]
  by_cases h : v ≤ l
  · simp [h]
  · simp [h]

/-- Witness for C8 at a concrete limit and amount. -/
theorem C8_limit_boundary_witness :
    refund_limit_check (some 5000) 4999 = LimitCheck.withinLimit ↔ (4999 : Int) ≤ 5000 :=
  (C8_limit_boundary.1 5000 4999 (by decide)).1

/-- Claim C9 (confirmed): for every input — including one with a valid agent
id, a policy id, and an allowing decision available — the class-based
`AportAgentMiddleware.process` terminates the run with no policy or passport
verification and without invoking `next`, because its terminate-and-return
statements sit outside the missing-agent-id guard; the function-based
`aport_agent_middleware` on the same allowing input does invoke `next`. -/
theorem C9_process_terminates_unconditionally :
    (∀ (a b p : Option String) (v : VerifyOutcome) (pp : PassportOutcome),
      AportAgentMiddleware_process a b p v pp =
        { nextInvoked := false, terminate := true, verifyCalls := 0, passportCalls := 0 })
    ∧ aport_agent_middleware (some "ap_a2d10232c6534523812423eec8a1425c") none
        (some "finance.payment.refund.v1") (.decision decAllow) .ok =
        { nextInvoked := true, terminate := false, verifyCalls := 1, passportCalls := 0 } :=
  ⟨fun _ _ _ _ _ => rfl, by decide⟩

/-- Claim C3 (confirmed): MCP validation is conjunctive — it returns `ok`
exactly when every requested server and every requested tool is allowlisted,
so any single unauthorized entry denies the whole request; with both requested
sets empty it trivially passes. -/
theorem C3_mcp_conjunctive :
    ∀ (allowed_servers allowed_tools requested_servers requested_tools : List String),
      (validate_mcp_against_passport allowed_servers allowed_tools
          requested_servers requested_tools = .ok
        ↔ (∀ s ∈ requested_servers, s ∈ allowed_servers)
          ∧ (∀ t ∈ requested_tools, t ∈ allowed_tools))
      ∧ validate_mcp_against_passport allowed_servers allowed_tools [] [] = .ok := by
  intro aS aT rS rT
  refine ⟨?_, ?_⟩
  · unfold validate_mcp_against_passport
    by_cases hS : rS.filter (fun s => decide (s ∉ aS)) = []
    · rw [if_neg (fun hc => (hc.2 hS).elim)]
      by_cases hT : rT.filter (fun t => decide (t ∉ aT)) = []
      · rw [if_neg (fun hc => (hc.2 hT).elim)]
        constructor
        · intro _
          exact ⟨(filter_not_mem_eq_nil_iff rS aS).mp hS,
            (filter_not_mem_eq_nil_iff rT aT).mp hT⟩
        · intro _
          rfl
      · have hrT : rT ≠ [] := by
          intro h
          subst h
          exact hT rfl
        rw [if_pos ⟨hrT, hT⟩]
        constructor
        · intro h
          exact (McpValidation.noConfusion h)
        · intro hall
          exact absurd ((filter_not_mem_eq_nil_iff rT aT).mpr hall.2) hT
    · have hrS : rS ≠ [] := by
        intro h
        subst h
        exact hS rfl
      rw [if_pos ⟨hrS, hS⟩]
      constructor
      · intro h
        exact (McpValidation.noConfusion h)
      · intro hall
        exact absurd ((filter_not_mem_eq_nil_iff rS aS).mpr hall.1) hS
  · unfold validate_mcp_against_passport
    rw [if_neg (fun hc => hc.1 rfl), if_neg (fun hc => hc.1 rfl)]

/-- Claim C6 counterexample: at the spec's own example — allowlist
`{servers: [A], tools: [X]}`, request `{servers: [A, B], tools: [X]}` — the
denial is the server-side `HTTPException` carrying `unauthorized_servers =
[B]` only; no `unauthorized_tools` set (not even an empty one) is part of the
failure, contradicting "the single failure result carries both sets". -/
theorem C6_counterexample :
    validate_mcp_against_passport ["A"] ["X"] ["A", "B"] ["X"]
        = .serverDenied ["B"]
    ∧ carriedUnauthorizedTools
        (validate_mcp_against_passport ["A"] ["X"] ["A", "B"] ["X"]) = none := by
  decide

/-- Claim C6 (corrected): validation reports exactly one difference set — it
fails with `serverDenied (requested_servers - allowlist.servers)` whenever
that set difference is non-empty, and only otherwise with
`toolDenied (requested_tools - allowlist.tools)` when that one is non-empty;
the spec's example therefore yields a server denial carrying only
`unauthorized_servers = [B]`. -/
theorem C6_denial_sets_amended :
    (∀ (allowed_servers allowed_tools requested_servers requested_tools : List String),
      (validate_mcp_against_passport allowed_servers allowed_tools
          requested_servers requested_tools
          = .serverDenied (requested_servers.filter (fun s => decide (s ∉ allowed_servers)))
        ↔ requested_servers.filter (fun s => decide (s ∉ allowed_servers)) ≠ [])
      ∧ (validate_mcp_against_passport allowed_servers allowed_tools
          requested_servers requested_tools
          = .toolDenied (requested_tools.filter (fun t => decide (t ∉ allowed_tools)))
        ↔ requested_servers.filter (fun s => decide (s ∉ allowed_servers)) = []
          ∧ requested_tools.filter (fun t => decide (t ∉ allowed_tools)) ≠ []))
    ∧ validate_mcp_against_passport ["A"] ["X"] ["A", "B"] ["X"]
        = .serverDenied ["B"] := by
  refine ⟨?_, by decide⟩
  intro aS aT rS rT
  unfold validate_mcp_against_passport
  by_cases hS : rS.filter (fun s => decide (s ∉ aS)) = []
  · rw [if_neg (fun hc => (hc.2 hS).elim)]
    by_cases hT : rT.filter (fun t => decide (t ∉ aT)) = []
    · rw [if_neg (fun hc => (hc.2 hT).elim)]
      constructor
      · constructor
        · intro h
          exact (McpValidation.noConfusion h)
        · intro h
          exact absurd hS h
      · constructor
        · intro h
          exact (McpValidation.noConfusion h)
        · intro h
          exact absurd hT h.2
    · have hrT : rT ≠ [] := by
        intro h
        subst h
        exact hT rfl
      rw [if_pos ⟨hrT, hT⟩]
      constructor
      · constructor
        · intro h
          exact (McpValidation.noConfusion h)
        · intro h
          exact absurd hS h
      · constructor
        · intro _
          exact ⟨hS, hT⟩
        · intro _
          rfl
  · have hrS : rS ≠ [] := by
      intro h
      subst h
      exact hS rfl
    rw [if_pos ⟨hrS, hS⟩]
    constructor
    · constructor
      · intro _
        exact hS
      · intro _
        rfl
    · constructor
      · intro h
        exact (McpValidation.noConfusion h)
      · intro h
        exact absurd h.1 hS

/-- Claim C1 counterexample: in `aport_function_middleware`, with an agent id
present but no policy id in metadata and a function name outside the default
mapping, `next` is invoked with zero verification calls — so "no verification
is performed at all" does not imply "the protected action is never invoked";
the denying decision the oracle would have returned is never consulted. -/
theorem C1_counterexample :
    (aport_function_middleware (some "ap_demo") none none none "unmapped_tool"
        (.decision decDeny)).nextInvoked = true
    ∧ (aport_function_middleware (some "ap_demo") none none none "unmapped_tool"
        (.decision decDeny)).verifyCalls = 0 := by
  decide

/-- Claim C1 (corrected): fail-closed totality holds unconditionally for the
`with_pre_action_authorization` wrapper (the wrapped function runs iff
verification returned an allowing decision), and for both middlewares it
holds whenever a policy id resolves: then `next` runs only if the single
verification returned a decision with `allow = true`.  When no policy id
resolves, `aport_function_middleware` invokes `next` without any
verification. -/
theorem C1_fail_closed_amended :
    (∀ (outcome : VerifyOutcome) (action : Nat),
      (with_pre_action_authorization outcome action).funcExecuted = true
        ↔ ∃ d, outcome = VerifyOutcome.decision d ∧ d.allow = true)
    ∧ (∀ (a b p pf : Option String) (fn : String) (v : VerifyOutcome),
        truthy (pyOr (pyOr p pf) (default_policy_mapping fn)) = true →
        (aport_function_middleware a b p pf fn v).nextInvoked = true →
        ∃ d, v = VerifyOutcome.decision d ∧ d.allow = true)
    ∧ (∀ (a b p : Option String) (v : VerifyOutcome) (pp : PassportOutcome),
        truthy p = true →
        (aport_agent_middleware a b p v pp).nextInvoked = true →
        ∃ d, v = VerifyOutcome.decision d ∧ d.allow = true) := by
  refine ⟨?_, ?_, ?_⟩
  · intro outcome action
    cases outcome with
    | failure =>
      simp [with_pre_action_authorization, PreActionAuthorizer_verify]
    | decision d =>
      cases hda : d.allow with
      | true =>
        simp [with_pre_action_authorization, PreActionAuthorizer_verify, hda]
      | false =>
        simp [with_pre_action_authorization, PreActionAuthorizer_verify, hda]
  · intro a b p pf fn v hp hnext
    unfold aport_function_middleware at hnext
    by_cases ha : truthy (pyOr a b) = true
    · rw [if_neg (by simp [ha])] at hnext
      rw [if_neg (by simp [hp])] at hnext
      cases v with
      | failure => simp at hnext
      | decision d =>
        cases hda : d.allow with
        | true => exact ⟨d, rfl, hda⟩
        | false => simp [hda] at hnext
    · rw [if_pos (by simp [ha])] at hnext
      simp at hnext
  · intro a b p v pp hp hnext
    unfold aport_agent_middleware at hnext
    by_cases ha : truthy (pyOr a b) = true
    · rw [if_neg (by simp [ha])] at hnext
      rw [if_pos hp] at hnext
      cases v with
      | failure => simp at hnext
      | decision d =>
        cases hda : d.allow with
        | true => exact ⟨d, rfl, hda⟩
        | false => simp [hda] at hnext
    · rw [if_pos (by simp [ha])] at hnext
      simp at hnext

/-- Witness for C1 (corrected) at concrete inputs: a resolved policy id with
an allowing decision. -/
theorem C1_fail_closed_amended_witness :
    ∃ d, VerifyOutcome.decision decAllow = VerifyOutcome.decision d ∧ d.allow = true :=
  C1_fail_closed_amended.2.1 (some "ap_demo") none (some "finance.payment.refund.v1")
    none "execute_refund" (.decision decAllow) (by decide) (by decide)

/-- Claim C10 (confirmed): `extract_mcp_headers` keeps the legacy single
fields consistent with the lists (`server` and `tool` are the heads, `none`
when empty), splits a comma-separated header into trimmed pieces, and wraps a
lone non-empty value into a one-element list unchanged. -/
theorem C10_header_consistency :
    ∀ (serversH serverH toolsH toolH sessionH : Option String),
      ((extract_mcp_headers serversH serverH toolsH toolH sessionH).server
          = (extract_mcp_headers serversH serverH toolsH toolH sessionH).servers.head?
        ∧ (extract_mcp_headers serversH serverH toolsH toolH sessionH).tool
          = (extract_mcp_headers serversH serverH toolsH toolH sessionH).tools.head?)
      ∧ (∀ h, pyOr serversH serverH = some h → h ≠ "" → h.data.contains ',' = true →
          (extract_mcp_headers serversH serverH toolsH toolH sessionH).servers
            = (h.data.splitOn ',').map (fun cs => String.mk (pyStrip cs)))
      ∧ (∀ h, pyOr serversH serverH = some h → h ≠ "" → h.data.contains ',' = false →
          (extract_mcp_headers serversH serverH toolsH toolH sessionH).servers = [h])
      ∧ (∀ h, pyOr toolsH toolH = some h → h ≠ "" → h.data.contains ',' = true →
          (extract_mcp_headers serversH serverH toolsH toolH sessionH).tools
            = (h.data.splitOn ',').map (fun cs => String.mk (pyStrip cs)))
      ∧ (∀ h, pyOr toolsH toolH = some h → h ≠ "" → h.data.contains ',' = false →
          (extract_mcp_headers serversH serverH toolsH toolH sessionH).tools = [h]) := by
  intro serversH serverH toolsH toolH sessionH
  refine ⟨⟨rfl, rfl⟩, ?_, ?_, ?_, ?_⟩
  · intro h heq hne hc
    show parseListHeader (pyOr serversH serverH) = _
    rw [heq]
    simp only [parseListHeader, splitHeader]
    rw [if_neg hne, if_pos hc]
  · intro h heq hne hc
    show parseListHeader (pyOr serversH serverH) = _
    rw [heq]
    simp only [parseListHeader, splitHeader]
    rw [if_neg hne, if_neg (by rw [hc]; exact Bool.false_ne_true)]
  · intro h heq hne hc
    show parseListHeader (pyOr toolsH toolH) = _
    rw [heq]
    simp only [parseListHeader, splitHeader]
    rw [if_neg hne, if_pos hc]
  · intro h heq hne hc
    show parseListHeader (pyOr toolsH toolH) = _
    rw [heq]
    simp only [parseListHeader, splitHeader]
    rw [if_neg hne, if_neg (by rw [hc]; exact Bool.false_ne_true)]

/-- Witness for C10 at concrete headers: a comma-separated servers header is
split and trimmed, a lone tools header becomes a one-element list. -/
theorem C10_header_consistency_witness :
    (extract_mcp_headers (some "https://mcp.stripe.com, https://mcp.notion.com") none
        (some "stripe.refunds.create") none none).servers
      = (("https://mcp.stripe.com, https://mcp.notion.com").data.splitOn ',').map
          (fun cs => String.mk (pyStrip cs))
    ∧ (extract_mcp_headers (some "https://mcp.stripe.com, https://mcp.notion.com") none
        (some "stripe.refunds.create") none none).tools = ["stripe.refunds.create"] :=
  ⟨(C10_header_consistency (some "https://mcp.stripe.com, https://mcp.notion.com") none
      (some "stripe.refunds.create") none none).2.1
      "https://mcp.stripe.com, https://mcp.notion.com" (by decide) (by decide) (by decide),
   (C10_header_consistency (some "https://mcp.stripe.com, https://mcp.notion.com") none
      (some "stripe.refunds.create") none none).2.2.2.2
      "stripe.refunds.create" (by decide) (by decide) (by decide)⟩

/-- Claim C2 (confirmed, against the spec-modelled deduper): a first `verify`
with a fresh idempotency key performs one remote call and commits its
decision; a second call with the same key while the entry is still valid
returns a decision with identical `decision_id` and `allow` and performs zero
remote calls, whatever the remote authority would have answered the second
time. -/
theorem C2_idempotent_replay :
    ∀ (store : DedupStore) (k : String) (t tLater configured_ttl : Nat)
      (remote1 remote2 : Decision),
      store k = none →
      tLater < t + min configured_ttl remote1.expires_in →
      ((verify_dedup (verify_dedup store (some k) t configured_ttl remote1).store
          (some k) tLater configured_ttl remote2).decision.decision_id
        = (verify_dedup store (some k) t configured_ttl remote1).decision.decision_id
      ∧ (verify_dedup (verify_dedup store (some k) t configured_ttl remote1).store
          (some k) tLater configured_ttl remote2).decision.allow
        = (verify_dedup store (some k) t configured_ttl remote1).decision.allow
      ∧ (verify_dedup (verify_dedup store (some k) t configured_ttl remote1).store
          (some k) tLater configured_ttl remote2).remoteCalls = 0
      ∧ (verify_dedup store (some k) t configured_ttl remote1).remoteCalls = 1) := by
  intro store k t tLater cfg remote1 remote2 hnone hlive
  simp only [verify_dedup, hnone]
  simp [DedupEntry.isLive, hlive]

/-- A concrete decision for the C2 witness. -/
def dec1 : Decision := ⟨"dec_1", true, 60⟩

/-- Witness for C2 at concrete inputs: fresh store, key `k1`, first call at
time 0, replay at time 30 against a remote oracle that would have answered
differently. -/
theorem C2_idempotent_replay_witness :
    ((verify_dedup (verify_dedup (fun _ => none) (some "k1") 0 300 dec1).store
        (some "k1") 30 300 ⟨"dec_2", false, 60⟩).decision.decision_id
      = (verify_dedup (fun _ => none) (some "k1") 0 300 dec1).decision.decision_id
    ∧ (verify_dedup (verify_dedup (fun _ => none) (some "k1") 0 300 dec1).store
        (some "k1") 30 300 ⟨"dec_2", false, 60⟩).decision.allow
      = (verify_dedup (fun _ => none) (some "k1") 0 300 dec1).decision.allow
    ∧ (verify_dedup (verify_dedup (fun _ => none) (some "k1") 0 300 dec1).store
        (some "k1") 30 300 ⟨"dec_2", false, 60⟩).remoteCalls = 0
    ∧ (verify_dedup (fun _ => none) (some "k1") 0 300 dec1).remoteCalls = 1) :=
  C2_idempotent_replay (fun _ => none) "k1" 0 30 300 dec1 ⟨"dec_2", false, 60⟩ rfl
    (by decide)

/-- An outcome sequence whose first response is a definitive 403 deny and
whose later responses succeed. -/
def denyThenOk : Nat → Outcome :=
  fun i => if i = 1 then .resp 403 none 0 else .resp 200 none 42

/-- Claim C7 counterexample: the first attempt's outcome is a definitive 403
deny — not a timeout, rate limit, 5xx or connection failure — yet
`verify_with_retry` sleeps and issues a second call (2 calls made, the second
attempt's data returned), so non-transient definitive responses are
retried. -/
theorem C7_counterexample :
    denyThenOk 1 = .resp 403 none 0
    ∧ (verify_with_retry denyThenOk 3).2.1 = 2
    ∧ (verify_with_retry denyThenOk 3).1 = some 42 := by
  decide

/-- All-failure run of the retry loop: starting from `attempt` with the
correct remaining-iteration count, if every outcome up to the cap is a
failure the loop makes exactly one call per remaining attempt, sleeps the
backoff delay after each non-final attempt, and ends with `none`. -/
theorem retryGo_all_fail (oracle : Nat → Outcome) (max_retries : Nat) :
    ∀ (remaining attempt : Nat), remaining = max_retries + 1 - attempt →
      1 ≤ attempt → attempt ≤ max_retries →
      (∀ i, attempt ≤ i → i ≤ max_retries → isFail (oracle i) = true) →
      retryGo oracle max_retries attempt remaining =
        (none, max_retries + 1 - attempt,
         (List.range' attempt (max_retries - attempt)).map
           (fun i => delayOf (oracle i) i)) := by
  intro remaining
  induction remaining with
  | zero =>
    intro attempt hrem h1 hle _
    omega
  | succ r ih =>
    intro attempt hrem h1 hle hfail
    have hthis : isFail (oracle attempt) = true := hfail attempt le_rfl hle
    rcases hmax : Nat.lt_or_ge attempt max_retries with hlt | hge
    all_goals clear hmax
    · have hrem' : r = max_retries + 1 - (attempt + 1) := by omega
      have hrec := ih (attempt + 1) hrem' (by omega) (by omega)
        (fun i hi hi' => hfail i (by omega) hi')
      have hcount : max_retries + 1 - attempt = (max_retries + 1 - (attempt + 1)) + 1 := by
        omega
      have hrange : List.range' attempt (max_retries - attempt)
          = attempt :: List.range' (attempt + 1) (max_retries - (attempt + 1)) := by
        have : max_retries - attempt = (max_retries - (attempt + 1)) + 1 := by omega
        rw [this, List.range'_succ]
      rcases ho : oracle attempt with ⟨s, ra, d⟩ | _
      · have hs : ¬ s = 200 := by
          intro he
          rw [ho, he] at hthis
          simp [isFail] at hthis
        by_cases h429 : s = 429
        · simp only [retryGo, ho, if_neg hs, if_pos h429, if_pos hlt, hrec]
          rw [hcount, hrange]
          simp [delayOf, ho, h429]
        · simp only [retryGo, ho, if_neg hs, if_neg h429, if_pos hlt, hrec]
          rw [hcount, hrange]
          simp [delayOf, ho, h429]
      · simp only [retryGo, ho, if_pos hlt, hrec]
        rw [hcount, hrange]
        simp [delayOf, ho]
    · have heq : attempt = max_retries := by omega
      subst heq
      have hnotlt : ¬ attempt < attempt := lt_irrefl attempt
      have hcount : attempt + 1 - attempt = 1 := by omega
      have hrange : attempt - attempt = 0 := by omega
      rcases ho : oracle attempt with ⟨s, ra, d⟩ | _
      · have hs : ¬ s = 200 := by
          intro he
          rw [ho, he] at hthis
          simp [isFail] at hthis
        by_cases h429 : s = 429
        · simp only [retryGo, ho, if_neg hs, if_pos h429, if_neg hnotlt]
          rw [hcount, hrange]
          rfl
        · simp only [retryGo, ho, if_neg hs, if_neg h429, if_neg hnotlt]
          rw [hcount, hrange]
          rfl
      · simp only [retryGo, ho, if_neg hnotlt]
        rw [hcount, hrange]
        rfl

/-- Claim C7 (corrected): `verify_with_retry` returns a 200 response's data
immediately with a single call and no sleep; but it retries every non-200
outcome — transient or definitive — sleeping the backoff delay
(`retryAfter or 2 ** attempt` on 429, `2 ** attempt` otherwise) until the
attempt cap: when all attempts fail it makes exactly `max_retries` calls and
surfaces `None` rather than a guessed result. -/
theorem C7_retry_amended :
    (∀ (oracle : Nat → Outcome) (max_retries : Nat) (ra : Option Nat) (d : Nat),
      1 ≤ max_retries → oracle 1 = .resp 200 ra d →
      verify_with_retry oracle max_retries = (some d, 1, []))
    ∧ (∀ (oracle : Nat → Outcome) (max_retries : Nat),
        1 ≤ max_retries →
        (∀ i, 1 ≤ i → i ≤ max_retries → isFail (oracle i) = true) →
        verify_with_retry oracle max_retries =
          (none, max_retries,
           (List.range' 1 (max_retries - 1)).map (fun i => delayOf (oracle i) i))) := by
  constructor
  · intro oracle max_retries ra d h1 ho
    unfold verify_with_retry
    rcases max_retries with _ | r
    · omega
    · simp [retryGo, ho]
  · intro oracle max_retries h1 hfail
    unfold verify_with_retry
    have := retryGo_all_fail oracle max_retries max_retries 1 (by omega) le_rfl h1 hfail
    rw [this]
    have hc : max_retries + 1 - 1 = max_retries := by omega
    rw [hc]

/-- Witness for C7 (corrected) at concrete inputs: every attempt answers 403,
cap 2 — two calls, one backoff sleep of `2 ** 1`, final result `None`; and a
first-attempt 200 returns at once. -/
theorem C7_retry_amended_witness :
    verify_with_retry (fun _ => Outcome.resp 403 none 0) 2 = (none, 2, [2])
    ∧ verify_with_retry (fun _ => Outcome.resp 200 none 7) 3 = (some 7, 1, []) := by
  constructor
  · have := C7_retry_amended.2 (fun _ => Outcome.resp 403 none 0) 2 (by decide)
      (fun i _ _ => rfl)
    simpa using this
  · exact C7_retry_amended.1 (fun _ => Outcome.resp 200 none 7) 3 none 7 (by decide) rfl
